import Mathlib

/-!
# Verification of the Lyreco accessibility-monitor scoring engine

Shallow embedding of the scoring/aggregation core of `src/app.py`
(Lyreco Accessibility Monitor, version 7.0).

Python `float` values are modelled as exact rationals (`ℚ`), Python `int`
as `ℤ`.  Python's `round(x, 1)` (round-half-to-even on the first decimal)
is modelled by `pyRound1`.  Dynamically-typed Python values flowing into
the normalizers `safe_int` / `safe_float` are modelled by the inductive
type `PyVal`; coercions that raise in Python are modelled as `Option`
results (`none` = the coercion raises).

The two upstream JSON payloads (Lighthouse / WAVE) are modelled as
structures whose optional fields stand for absent JSON keys or `null`
values; a whole-request failure (exception, non-200 status, JSON decode
failure) is modelled by passing `none` for the payload.
-/

/-- A dynamically-typed Python value, as received by the normalizers
`safe_int` / `safe_float` and by the WAVE count extraction.  `vNone` is
Python `None` (also JSON `null`). -/
inductive PyVal where
  | vNone : PyVal
  | vInt (n : ℤ) : PyVal
  | vFloat (q : ℚ) : PyVal
  | vStr (s : String) : PyVal
  deriving DecidableEq

/-- Numeric value of a list of decimal digit characters, most significant
first (helper for the Python `int()` / `float()` string coercions). -/
def digitsVal (l : List Char) : ℕ :=
  l.foldl (fun acc c => acc * 10 + (c.toNat - 48)) 0

/-- All characters are decimal digits. -/
def allDigits (l : List Char) : Bool :=
  l.all (fun c => c.isDigit)

/-- Python `int(s)` on a string: optional sign followed by decimal digits;
anything else raises (= `none`).  (Surrounding whitespace and underscores,
which CPython also accepts, are not modelled; they are irrelevant to the
payload shapes the program handles.) -/
def parseIntStr (s : String) : Option ℤ :=
  match s.toList with
  | '-' :: rest => if !rest.isEmpty && allDigits rest then some (-(digitsVal rest : ℤ)) else none
  | '+' :: rest => if !rest.isEmpty && allDigits rest then some ((digitsVal rest : ℤ)) else none
  | l => if !l.isEmpty && allDigits l then some ((digitsVal l : ℤ)) else none

/-- Unsigned part of Python `float(s)`: digits with an optional single
decimal point (`"12"`, `"12."`, `".5"`, `"1.5"`). -/
def parseFracStr (l : List Char) : Option ℚ :=
  let ip := l.takeWhile (fun c => c != '.')
  let rest := l.dropWhile (fun c => c != '.')
  match rest with
  | [] => if !ip.isEmpty && allDigits ip then some ((digitsVal ip : ℚ)) else none
  | _ :: frac =>
      if allDigits ip && allDigits frac && (!ip.isEmpty || !frac.isEmpty) then
        some ((digitsVal ip : ℚ) + (digitsVal frac : ℚ) / (10 : ℚ) ^ frac.length)
      else none

/-- Python `float(s)` on a string: optional sign and a decimal literal;
anything else raises (= `none`).  (Exponents / `inf` / `nan` are not
modelled; irrelevant to the payloads handled here.) -/
def parseFloatStr (s : String) : Option ℚ :=
  match s.toList with
  | '-' :: rest => (parseFracStr rest).map (fun q => -q)
  | '+' :: rest => parseFracStr rest
  | l => parseFracStr l

/-- Python `int()` applied to a float truncates toward zero. -/
def pyTrunc (q : ℚ) : ℤ :=
  if 0 ≤ q then ⌊q⌋ else -⌊-q⌋

/-- Python `int(v)` on an arbitrary value; `none` models a raised
`TypeError` / `ValueError`. -/
def pyIntCoerce (v : PyVal) : Option ℤ :=
  match v with
  | .vNone => none
  | .vInt n => some n
  | .vFloat q => some (pyTrunc q)
  | .vStr s => parseIntStr s

/-- Python `float(v)` on an arbitrary value; `none` models a raised
`TypeError` / `ValueError`. -/
def pyFloatCoerce (v : PyVal) : Option ℚ :=
  match v with
  | .vNone => none
  | .vInt n => some ((n : ℚ))
  | .vFloat q => some q
  | .vStr s => parseFloatStr s

/-- `safe_int` (src/app.py lines 58-62):
`try: return int(value) if value is not None else 0; except: return 0`. -/
def safe_int (value : PyVal) : ℤ :=
  match value with
  | .vNone => 0
  | v => (pyIntCoerce v).getD 0

/-- `safe_float` (src/app.py lines 64-68):
`try: return float(value) if value is not None else 0.0; except: return 0.0`. -/
def safe_float (value : PyVal) : ℚ :=
  match value with
  | .vNone => 0
  | v => (pyFloatCoerce v).getD 0

/-- Round half to even (banker's rounding), as Python's built-in `round`
does on the integer grid. -/
def pyRoundHalfEven (q : ℚ) : ℤ :=
  if q - (⌊q⌋ : ℚ) < 1/2 then ⌊q⌋
  else if 1/2 < q - (⌊q⌋ : ℚ) then ⌊q⌋ + 1
  else if ⌊q⌋ % 2 = 0 then ⌊q⌋ else ⌊q⌋ + 1

/-- Python `round(x, 1)`: round to one decimal place, ties to even. -/
def pyRound1 (q : ℚ) : ℚ :=
  ((pyRoundHalfEven (10 * q) : ℤ) : ℚ) / 10

/-- `calculate_lyreco_score` (src/app.py lines 71-85). -/
def calculate_lyreco_score (lh_pct w_err w_con : PyVal) : ℚ :=
  let lh_pct := safe_float lh_pct
  let w_err := safe_int w_err
  let w_con := safe_int w_con
  let err_penalty := (w_err : ℚ) * 1.2
  let con_penalty := (w_con : ℚ) * 0.5
  let wave_base := max 0 (100 - err_penalty - con_penalty)
  let final_score := if lh_pct > 0 then lh_pct * 0.5 + wave_base * 0.5 else wave_base
  pyRound1 (max 0 final_score)

/-- The four severity-ladder groups of `generate_recommendations`
(src/app.py lines 110-124), in source order: ARIA, alt text, contrast,
WAVE errors.  The Python code appends each fired entry to an initially
empty list, which is the concatenation of these conditional groups. -/
def severityRecs (aria_issues alt_issues contrast wave_err : ℤ) : List String :=
  (if aria_issues > 0 then
     ["🔴 CRITICAL: Fix " ++ toString aria_issues ++ " ARIA issues (screen readers)"]
   else [])
  ++ (if alt_issues > 0 then
     ["🔴 CRITICAL: Add alt text to " ++ toString alt_issues ++ " images"]
   else [])
  ++ (if contrast > 10 then
     ["🟡 HIGH: Fix " ++ toString contrast ++ " contrast issues (WCAG AA)"]
   else if contrast > 0 then
     ["🟡 MEDIUM: Improve " ++ toString contrast ++ " contrast ratios"]
   else [])
  ++ (if wave_err > 20 then
     ["🔴 HIGH: " ++ toString wave_err ++ " accessibility errors detected"]
   else if wave_err > 5 then
     ["🟡 MEDIUM: " ++ toString wave_err ++ " errors need attention"]
   else [])

/-- The score-band triage group of `generate_recommendations`
(src/app.py lines 126-131): `< 60` action-required, `60 ≤ score < 80`
plan, `≥ 90` maintain, otherwise nothing. -/
def triageRecs (score : ℚ) : List String :=
  if score < 60 then ["⚠️ ACTION REQUIRED: Critical barriers present"]
  else if score < 80 then ["📋 PLAN: Schedule fixes in next sprint"]
  else if score ≥ 90 then ["✅ MAINTAIN: Monitor for regressions"]
  else []

/-- `generate_recommendations` (src/app.py lines 100-133).  The sequential
appends are regrouped as `severityRecs ++ triageRecs`; `lh_val` is
normalized by the source but never used. -/
def generate_recommendations (score lh_val wave_err contrast aria_issues alt_issues : PyVal) :
    List String :=
  let score := safe_float score
  let _lh_val := safe_float lh_val
  let wave_err := safe_int wave_err
  let contrast := safe_int contrast
  let aria_issues := safe_int aria_issues
  let alt_issues := safe_int alt_issues
  let recommendations := severityRecs aria_issues alt_issues contrast wave_err ++ triageRecs score
  if recommendations.isEmpty then ["✅ No major issues detected"] else recommendations

/-- Is `pat` a contiguous sublist of `l`?  Models Python's `in` operator
on strings. -/
def listContains (l pat : List Char) : Bool :=
  match l with
  | [] => pat.isEmpty
  | _ :: t => pat.isPrefixOf l || listContains t pat

/-- Python `pat in s` for strings. -/
def strContains (s pat : String) : Bool :=
  listContains s.toList pat.toList

/-- One entry of the Lighthouse `audits` mapping: `id` is the audit-id key,
`score` is the audit's `score` field (`none` = JSON `null` or absent, in
which case the `.get('score', 1)` default / `is not None` guard makes the
audit count as not failed), `title` is the `title` field (`none` = absent,
defaulted to `"Unknown"`). -/
structure LHAudit where
  id : String
  score : Option ℚ
  title : Option String
  deriving DecidableEq

/-- Parsed Lighthouse payload: the accessibility category score (a 0-1
fraction; `none` = absent or `null`) and the `audits` mapping in its JSON
encounter order. -/
structure LHJson where
  score_value : Option ℚ
  audits : List LHAudit
  deriving DecidableEq

/-- One WAVE `categories` entry; `count` is its `count` field
(`none` = key absent, so `.get('count')` returns `None`). -/
structure WaveCategory where
  count : Option PyVal
  deriving DecidableEq

/-- The WAVE `categories` object; `none` fields model absent keys. -/
structure WaveCategories where
  error : Option WaveCategory
  contrast : Option WaveCategory
  deriving DecidableEq

/-- Parsed WAVE payload. -/
structure WaveJson where
  categories : Option WaveCategories
  deriving DecidableEq

/-- A failed Lighthouse audit: `score_val is not None and score_val < 1`
with `.get('score', 1)` defaulting (src/app.py lines 161-162). -/
def auditFailed (a : LHAudit) : Bool :=
  match a.score with
  | some s => decide (s < 1)
  | none => false

/-- The audit title with the `.get('title', 'Unknown')` default
(src/app.py line 163). -/
def auditTitle (a : LHAudit) : String :=
  a.title.getD "Unknown"

/-- One iteration of the Lighthouse audits loop (src/app.py lines 160-170),
threading the accumulator `(failed_audits, aria_issues, alt_issues)`. -/
def lighthouseStep (acc : List String × ℤ × ℤ) (audit : LHAudit) : List String × ℤ × ℤ :=
  if auditFailed audit then
    let title := auditTitle audit
    (acc.1 ++ [title],
     acc.2.1 + (if strContains audit.id.toLower "aria" then 1 else 0),
     acc.2.2 + (if strContains audit.id "image-alt" || strContains title.toLower "alt"
                then 1 else 0))
  else acc

/-- The full Lighthouse audits loop of `run_audit` (src/app.py
lines 159-170), returning `(failed_audits, aria_issues, alt_issues)`. -/
def lighthouseLoop (audits : List LHAudit) : List String × ℤ × ℤ :=
  audits.foldl lighthouseStep ([], 0, 0)

/-- One `categories.<name>.count` extraction of the WAVE block
(src/app.py lines 185-195): absent category or absent/`None` count leaves
the running value at its initial `0` (encoded `some 0`); a present count
is coerced with `int(...)`, and `none` means that coercion raised. -/
def waveCategoryCount (cat : Option WaveCategory) : Option ℤ :=
  match cat with
  | none => some 0
  | some c =>
      match c.count with
      | none => some 0
      | some PyVal.vNone => some 0
      | some v => pyIntCoerce v

/-- The WAVE response processing of `run_audit` (src/app.py
lines 181-198): both count extractions run sequentially inside one `try`,
error first, so an exception in either coercion aborts the rest of the
block while keeping the assignments already made; the `except` arm only
warns.  Returns `(err, con)`. -/
def waveExtract (dw : WaveJson) : ℤ × ℤ :=
  match dw.categories with
  | none => (0, 0)
  | some cats =>
      match waveCategoryCount cats.error with
      | none => (0, 0)
      | some err =>
          match waveCategoryCount cats.contrast with
          | none => (err, 0)
          | some con => (err, con)

/-- The result-record dictionary built by `run_audit` (src/app.py
lines 210-224).  The wall-clock `Timestamp` field is omitted (not
derivable from the inputs). -/
structure AuditRecord where
  country : String
  page_type : String
  url : String
  score : ℚ
  lighthouse : ℚ
  wave_errors : ℤ
  contrast_issues : ℤ
  aria_issues : ℤ
  alt_issues : ℤ
  top_failed_audits : String
  recommendations : String
  deploy_version : String
  deriving DecidableEq

/-- `run_audit` (src/app.py lines 136-224), as a function of the two
upstream outcomes: `lh` is the parsed Lighthouse payload (`none` = the
whole Lighthouse block failed: request exception, non-200 status or a
parse error, leaving all its signals at their zero initials), `wave`
likewise for the WAVE payload. -/
def run_audit (url page_type country deploy_version : String)
    (lh : Option LHJson) (wave : Option WaveJson) : AuditRecord :=
  let lh_val : ℚ :=
    match lh with
    | some d => match d.score_value with
                | some s => s * 100
                | none => 0
    | none => 0
  let loopRes : List String × ℤ × ℤ :=
    match lh with
    | some d => lighthouseLoop d.audits
    | none => ([], 0, 0)
  let failed_audits := loopRes.1
  let aria_issues := loopRes.2.1
  let alt_issues := loopRes.2.2
  let waveRes : ℤ × ℤ :=
    match wave with
    | some dw => waveExtract dw
    | none => (0, 0)
  let err := waveRes.1
  let con := waveRes.2
  let score := calculate_lyreco_score (.vFloat lh_val) (.vInt err) (.vInt con)
  let recommendations := generate_recommendations (.vFloat score) (.vFloat lh_val)
    (.vInt err) (.vInt con) (.vInt aria_issues) (.vInt alt_issues)
  { country := country
    page_type := page_type
    url := url
    score := score
    lighthouse := lh_val
    wave_errors := err
    contrast_issues := con
    aria_issues := aria_issues
    alt_issues := alt_issues
    top_failed_audits := if failed_audits.isEmpty then ""
                         else String.intercalate "; " (failed_audits.take 3)
    recommendations := if recommendations.isEmpty then "No data"
                       else String.intercalate " | " recommendations
    deploy_version := deploy_version }

/-- `df['Score'].mean()` over a result set (src/app.py lines 237, 311). -/
def averageScore (rs : List AuditRecord) : ℚ :=
  (rs.map (fun r => r.score)).sum / rs.length

/-- `df['WAVE Errors'].sum()` (src/app.py line 242). -/
def totalWaveErrors (rs : List AuditRecord) : ℤ :=
  (rs.map (fun r => r.wave_errors)).sum

/-- `df['ARIA Issues'].sum()` (src/app.py lines 239, 313). -/
def totalAriaIssues (rs : List AuditRecord) : ℤ :=
  (rs.map (fun r => r.aria_issues)).sum

/-- `df['Alt Text Issues'].sum()` (src/app.py lines 240, 315). -/
def totalAltIssues (rs : List AuditRecord) : ℤ :=
  (rs.map (fun r => r.alt_issues)).sum

/-- `df['Contrast Issues'].sum()` (src/app.py lines 241, 317). -/
def totalContrastIssues (rs : List AuditRecord) : ℤ :=
  (rs.map (fun r => r.contrast_issues)).sum

/-- One cell of the heatmap pivot
`df.pivot_table(values='Score', index='Country', columns='Page Type',
aggfunc='first')` (src/app.py line 339): the score of the FIRST record
with the given (country, page_type) key, `none` if the group is empty. -/
def pivotScoreFirst (rs : List AuditRecord) (country page_type : String) : Option ℚ :=
  (rs.find? (fun r => r.country == country && r.page_type == page_type)).map
    (fun r => r.score)

/-- A concrete audit record (re-imported CSV scenario): key
("France", "Home") with score 100. -/
def recFranceHomeA : AuditRecord :=
  { country := "France", page_type := "Home", url := "https://shop.lyreco.fr/fr"
    score := 100, lighthouse := 100, wave_errors := 0, contrast_issues := 0
    aria_issues := 0, alt_issues := 0, top_failed_audits := ""
    recommendations := "✅ MAINTAIN: Monitor for regressions", deploy_version := "" }

/-- A second concrete record with the same ("France", "Home") key but
score 0 (a duplicate from a re-imported CSV). -/
def recFranceHomeB : AuditRecord :=
  { country := "France", page_type := "Home", url := "https://shop.lyreco.fr/fr"
    score := 0, lighthouse := 0, wave_errors := 100, contrast_issues := 0
    aria_issues := 0, alt_issues := 0, top_failed_audits := ""
    recommendations := "⚠️ ACTION REQUIRED: Critical barriers present", deploy_version := "" }

/-- A WAVE payload whose `categories.error.count` is malformed (the string
`"abc"`, on which `int()` raises) while `categories.contrast.count` is the
well-formed integer 7. -/
def waveMalformedErrCount : WaveJson :=
  { categories := some
      { error := some { count := some (.vStr "abc") }
        contrast := some { count := some (.vInt 7) } } }

/-- A Lighthouse payload in which no audit failed (the single audit has
score 1). -/
def lhAllPassing : LHJson :=
  { score_value := some (9/10)
    audits := [{ id := "color-contrast", score := some 1, title := some "Contrast OK" }] }

/-! ## Basic lemmas about the embedding -/

@[simp] theorem safe_float_vFloat (q : ℚ) : safe_float (.vFloat q) = q := rfl

@[simp] theorem safe_float_vInt (n : ℤ) : safe_float (.vInt n) = (n : ℚ) := rfl

@[simp] theorem safe_int_vInt (n : ℤ) : safe_int (.vInt n) = n := rfl

theorem pyRoundHalfEven_ge_floor (q : ℚ) : ⌊q⌋ ≤ pyRoundHalfEven q := by
  unfold pyRoundHalfEven
  split_ifs <;> omega

theorem pyRoundHalfEven_le_ceil (q : ℚ) : pyRoundHalfEven q ≤ ⌈q⌉ := by
  have hfc : ⌊q⌋ ≤ ⌈q⌉ := Int.floor_le_ceil q
  have key : ¬ q - (⌊q⌋ : ℚ) < 1/2 → ⌊q⌋ + 1 ≤ ⌈q⌉ := by
    intro h
    have h0 : (⌊q⌋ : ℚ) < q := by
      have := not_lt.mp h
      linarith
    have h1 : (⌊q⌋ : ℚ) < (⌈q⌉ : ℚ) := lt_of_lt_of_le h0 (Int.le_ceil q)
    have h2 : ⌊q⌋ < ⌈q⌉ := by exact_mod_cast h1
    omega
  unfold pyRoundHalfEven
  split_ifs with h1 h2 h3
  · exact hfc
  · exact key h1
  · exact hfc
  · exact key h1

theorem pyRoundHalfEven_mono {q r : ℚ} (h : q ≤ r) :
    pyRoundHalfEven q ≤ pyRoundHalfEven r := by
  rcases lt_or_le ⌊q⌋ ⌊r⌋ with hf | hf
  · calc pyRoundHalfEven q ≤ ⌈q⌉ := pyRoundHalfEven_le_ceil q
      _ ≤ ⌊q⌋ + 1 := Int.ceil_le_floor_add_one q
      _ ≤ ⌊r⌋ := by omega
      _ ≤ pyRoundHalfEven r := pyRoundHalfEven_ge_floor r
  · have hf' : ⌊q⌋ = ⌊r⌋ := le_antisymm (Int.floor_le_floor h) hf
    unfold pyRoundHalfEven
    rw [hf']
    by_cases hr1 : r - (⌊r⌋ : ℚ) < 1/2
    · have hq1 : q - (⌊r⌋ : ℚ) < 1/2 := by linarith
      rw [if_pos hq1, if_pos hr1]
    · by_cases hr2 : 1/2 < r - (⌊r⌋ : ℚ)
      · rw [if_neg hr1, if_pos hr2]
        split_ifs <;> omega
      · by_cases hq1 : q - (⌊r⌋ : ℚ) < 1/2
        · rw [if_pos hq1, if_neg hr1, if_neg hr2]
          split_ifs <;> omega
        · have hqe : q = r := by
            have := not_lt.mp hq1
            have := not_lt.mp hr2
            linarith
          rw [hqe]

theorem pyRound1_mono {q r : ℚ} (h : q ≤ r) : pyRound1 q ≤ pyRound1 r := by
  unfold pyRound1
  have h1 : pyRoundHalfEven (10 * q) ≤ pyRoundHalfEven (10 * r) :=
    pyRoundHalfEven_mono (by linarith)
  have h2 : ((pyRoundHalfEven (10 * q) : ℤ) : ℚ) ≤ ((pyRoundHalfEven (10 * r) : ℤ) : ℚ) := by
    exact_mod_cast h1
  linarith

theorem pyRound1_nonneg {q : ℚ} (h : 0 ≤ q) : 0 ≤ pyRound1 q := by
  unfold pyRound1
  have h0 : (0 : ℤ) ≤ pyRoundHalfEven (10 * q) := by
    have h1 := pyRoundHalfEven_ge_floor (10 * q)
    have h2 : (0 : ℤ) ≤ ⌊10 * q⌋ := Int.floor_nonneg.mpr (by linarith)
    omega
  have h3 : (0 : ℚ) ≤ ((pyRoundHalfEven (10 * q) : ℤ) : ℚ) := by exact_mod_cast h0
  linarith

theorem pyRound1_le_100 {q : ℚ} (h : q ≤ 100) : pyRound1 q ≤ 100 := by
  unfold pyRound1
  have h0 : pyRoundHalfEven (10 * q) ≤ 1000 := by
    have h1 := pyRoundHalfEven_le_ceil (10 * q)
    have h2 : ⌈10 * q⌉ ≤ 1000 := Int.ceil_le.mpr (by push_cast; linarith)
    omega
  have h3 : ((pyRoundHalfEven (10 * q) : ℤ) : ℚ) ≤ 1000 := by exact_mod_cast h0
  linarith

/-- `pyRound1` is the identity on integers. -/
theorem pyRound1_intCast (n : ℤ) : pyRound1 ((n : ℚ)) = (n : ℚ) := by
  unfold pyRound1 pyRoundHalfEven
  have h10 : (10 : ℚ) * (n : ℚ) = ((10 * n : ℤ) : ℚ) := by push_cast; ring
  rw [h10, Int.floor_intCast]
  rw [if_pos (by norm_num : ((10 * n : ℤ) : ℚ) - ((10 * n : ℤ) : ℚ) < 1/2)]
  push_cast
  ring

/-- Evaluation shape of `calculate_lyreco_score` on already-typed
numeric arguments (the normalizers are the identity there). -/
theorem calc_score_eval (lh : ℚ) (w c : ℤ) :
    calculate_lyreco_score (.vFloat lh) (.vInt w) (.vInt c)
      = pyRound1 (max 0
          (if lh > 0 then lh * 0.5 + (max 0 (100 - (w : ℚ) * 1.2 - (c : ℚ) * 0.5)) * 0.5
           else max 0 (100 - (w : ℚ) * 1.2 - (c : ℚ) * 0.5))) := rfl

/-- `generate_recommendations` on already-typed numeric arguments is the
severity groups followed by the triage group, with the sentinel fallback. -/
theorem gen_rec_eval (s lh : ℚ) (w c a al : ℤ) :
    generate_recommendations (.vFloat s) (.vFloat lh) (.vInt w) (.vInt c) (.vInt a) (.vInt al)
      = if (severityRecs a al c w ++ triageRecs s).isEmpty
        then ["✅ No major issues detected"]
        else severityRecs a al c w ++ triageRecs s := rfl

/-- Concrete evaluation: huge WAVE counts clamp the WAVE base at 0, but a
Lighthouse percentage of 50 keeps the final score at 25.0. -/
theorem calc_score_50_1000_1000 :
    calculate_lyreco_score (.vFloat 50) (.vInt 1000) (.vInt 1000) = 25 := by
  rw [calc_score_eval]
  rw [if_pos (show (50 : ℚ) > 0 by norm_num)]
  have h1 : (100 : ℚ) - ((1000 : ℤ) : ℚ) * 1.2 - ((1000 : ℤ) : ℚ) * 0.5 = -1600 := by
    push_cast; norm_num
  rw [h1, max_eq_left (by norm_num : (-1600 : ℚ) ≤ 0)]
  have h2 : (50 : ℚ) * 0.5 + 0 * 0.5 = ((25 : ℤ) : ℚ) := by push_cast; norm_num
  rw [h2, max_eq_right (by push_cast; norm_num : (0 : ℚ) ≤ ((25 : ℤ) : ℚ))]
  rw [pyRound1_intCast]
  norm_num

/-- Concrete evaluation: a Lighthouse percentage above 100 is not clamped,
yielding a score above 100. -/
theorem calc_score_200_0_0 :
    calculate_lyreco_score (.vFloat 200) (.vInt 0) (.vInt 0) = 150 := by
  rw [calc_score_eval]
  rw [if_pos (show (200 : ℚ) > 0 by norm_num)]
  have h1 : (100 : ℚ) - ((0 : ℤ) : ℚ) * 1.2 - ((0 : ℤ) : ℚ) * 0.5 = 100 := by
    push_cast; norm_num
  rw [h1, max_eq_right (by norm_num : (0 : ℚ) ≤ 100)]
  have h2 : (200 : ℚ) * 0.5 + 100 * 0.5 = ((150 : ℤ) : ℚ) := by push_cast; norm_num
  rw [h2, max_eq_right (by push_cast; norm_num : (0 : ℚ) ≤ ((150 : ℤ) : ℚ))]
  rw [pyRound1_intCast]
  norm_num

/-! ## Claim theorems -/

/-- C1: for all integers `wave_errors ≥ 0` and `contrast ≥ 0`,
`calculate_lyreco_score(0, wave_errors, contrast)` equals
`round(max(0, 100 - 1.2*wave_errors - 0.5*contrast), 1)` — with a zero
Lighthouse percentage (passed either as int `0` or float `0.0`) the score
is the WAVE-only base, not 0 and not halved. -/
theorem lyreco_score_lighthouse_zero (w c : ℤ) (hw : 0 ≤ w) (hc : 0 ≤ c) :
    calculate_lyreco_score (.vInt 0) (.vInt w) (.vInt c)
        = pyRound1 (max 0 (100 - 1.2 * (w : ℚ) - 0.5 * (c : ℚ)))
    ∧ calculate_lyreco_score (.vFloat 0) (.vInt w) (.vInt c)
        = pyRound1 (max 0 (100 - 1.2 * (w : ℚ) - 0.5 * (c : ℚ))) := by
  have hint : calculate_lyreco_score (.vInt 0) (.vInt w) (.vInt c)
      = calculate_lyreco_score (.vFloat 0) (.vInt w) (.vInt c) := by
    unfold calculate_lyreco_score
    norm_num
  have hbody : calculate_lyreco_score (.vFloat 0) (.vInt w) (.vInt c)
      = pyRound1 (max 0 (100 - 1.2 * (w : ℚ) - 0.5 * (c : ℚ))) := by
    rw [calc_score_eval]
    have hcond : ¬ ((0 : ℚ) > 0) := by norm_num
    rw [if_neg hcond]
    rw [← max_assoc, max_self]
    have harg : 100 - (w : ℚ) * 1.2 - (c : ℚ) * 0.5
        = 100 - 1.2 * (w : ℚ) - 0.5 * (c : ℚ) := by ring
    rw [harg]
  exact ⟨hint.trans hbody, hbody⟩

/-- Witness for C1 at `wave_errors = 10`, `contrast = 4` (score 86.0). -/
theorem lyreco_score_lighthouse_zero_witness :
    (0 : ℤ) ≤ 10 ∧ (0 : ℤ) ≤ 4 ∧
    (calculate_lyreco_score (.vInt 0) (.vInt 10) (.vInt 4)
        = pyRound1 (max 0 (100 - 1.2 * ((10 : ℤ) : ℚ) - 0.5 * ((4 : ℤ) : ℚ)))
     ∧ calculate_lyreco_score (.vFloat 0) (.vInt 10) (.vInt 4)
        = pyRound1 (max 0 (100 - 1.2 * ((10 : ℤ) : ℚ) - 0.5 * ((4 : ℤ) : ℚ)))) :=
  ⟨by norm_num, by norm_num, lyreco_score_lighthouse_zero 10 4 (by norm_num) (by norm_num)⟩

/-- C2 counterexample: the claim fails as stated on two points.
`calculate_lyreco_score(50, 1000, 1000)` is 25.0, not 0.0 (the WAVE base
clamps to 0 but the Lighthouse half keeps the score at 25), and with no
upper bound on `lighthouse_pct` the result is not confined to `[0, 100]`:
`calculate_lyreco_score(200, 0, 0) = 150.0`. -/
theorem lyreco_score_clamp_counterexample :
    calculate_lyreco_score (.vFloat 50) (.vInt 1000) (.vInt 1000) = 25
    ∧ calculate_lyreco_score (.vFloat 50) (.vInt 1000) (.vInt 1000) ≠ 0
    ∧ calculate_lyreco_score (.vFloat 200) (.vInt 0) (.vInt 0) = 150
    ∧ ¬ (calculate_lyreco_score (.vFloat 200) (.vInt 0) (.vInt 0) ≤ 100) := by
  refine ⟨calc_score_50_1000_1000, ?_, calc_score_200_0_0, ?_⟩
  · rw [calc_score_50_1000_1000]; norm_num
  · rw [calc_score_200_0_0]; norm_num

/-- C2 (amended): for `0 ≤ lighthouse_pct ≤ 100`, `wave_errors ≥ 0` and
`wave_contrast ≥ 0` the result of `calculate_lyreco_score` lies in
`[0, 100]` and is an integer multiple of 0.1 (one decimal place); and
`calculate_lyreco_score(50, 1000, 1000)` equals 25.0, the clamped WAVE
base (0) averaged with the Lighthouse half. -/
theorem lyreco_score_range (lh : ℚ) (w c : ℤ)
    (hl0 : 0 ≤ lh) (hl1 : lh ≤ 100) (hw : 0 ≤ w) (hc : 0 ≤ c) :
    0 ≤ calculate_lyreco_score (.vFloat lh) (.vInt w) (.vInt c)
    ∧ calculate_lyreco_score (.vFloat lh) (.vInt w) (.vInt c) ≤ 100
    ∧ (∃ n : ℤ, calculate_lyreco_score (.vFloat lh) (.vInt w) (.vInt c) = (n : ℚ) / 10)
    ∧ calculate_lyreco_score (.vFloat 50) (.vInt 1000) (.vInt 1000) = 25 := by
  rw [calc_score_eval]
  have hw' : (0 : ℚ) ≤ (w : ℚ) := by exact_mod_cast hw
  have hc' : (0 : ℚ) ≤ (c : ℚ) := by exact_mod_cast hc
  have hbase0 : (0 : ℚ) ≤ max 0 (100 - (w : ℚ) * 1.2 - (c : ℚ) * 0.5) := le_max_left _ _
  have hbase1 : max 0 (100 - (w : ℚ) * 1.2 - (c : ℚ) * 0.5) ≤ 100 :=
    max_le (by norm_num) (by nlinarith)
  have hfin1 : (if lh > 0 then lh * 0.5 + (max 0 (100 - (w : ℚ) * 1.2 - (c : ℚ) * 0.5)) * 0.5
                else max 0 (100 - (w : ℚ) * 1.2 - (c : ℚ) * 0.5)) ≤ 100 := by
    split
    · nlinarith
    · exact hbase1
  have hM0 : (0 : ℚ) ≤ max 0 (if lh > 0
      then lh * 0.5 + (max 0 (100 - (w : ℚ) * 1.2 - (c : ℚ) * 0.5)) * 0.5
      else max 0 (100 - (w : ℚ) * 1.2 - (c : ℚ) * 0.5)) := le_max_left _ _
  have hM1 : max 0 (if lh > 0
      then lh * 0.5 + (max 0 (100 - (w : ℚ) * 1.2 - (c : ℚ) * 0.5)) * 0.5
      else max 0 (100 - (w : ℚ) * 1.2 - (c : ℚ) * 0.5)) ≤ 100 :=
    max_le (by norm_num) hfin1
  exact ⟨pyRound1_nonneg hM0, pyRound1_le_100 hM1,
    ⟨pyRoundHalfEven (10 * _), rfl⟩, calc_score_50_1000_1000⟩

/-- Witness for C2 (amended) at `lighthouse_pct = 80`, `wave_errors = 10`,
`contrast = 4` (score 83.0). -/
theorem lyreco_score_range_witness :
    (0 : ℚ) ≤ 80 ∧ (80 : ℚ) ≤ 100 ∧ (0 : ℤ) ≤ 10 ∧ (0 : ℤ) ≤ 4 ∧
    (0 ≤ calculate_lyreco_score (.vFloat 80) (.vInt 10) (.vInt 4)
     ∧ calculate_lyreco_score (.vFloat 80) (.vInt 10) (.vInt 4) ≤ 100
     ∧ (∃ n : ℤ, calculate_lyreco_score (.vFloat 80) (.vInt 10) (.vInt 4) = (n : ℚ) / 10)
     ∧ calculate_lyreco_score (.vFloat 50) (.vInt 1000) (.vInt 1000) = 25) :=
  ⟨by norm_num, by norm_num, by norm_num, by norm_num,
    lyreco_score_range 80 10 4 (by norm_num) (by norm_num) (by norm_num) (by norm_num)⟩

/-- C3: `calculate_lyreco_score` is monotone in each argument — holding
the others fixed, increasing `wave_errors` or `wave_contrast` never
increases the score, and for `lighthouse_pct` in `(0, 100]` increasing
`lighthouse_pct` never decreases it. -/
theorem lyreco_score_monotone (lh lh1 lh2 : ℚ) (w w1 c c1 : ℤ)
    (hw : w ≤ w1) (hc : c ≤ c1)
    (hlh1 : 0 < lh1) (hlh12 : lh1 ≤ lh2) (hlh2 : lh2 ≤ 100) :
    calculate_lyreco_score (.vFloat lh) (.vInt w1) (.vInt c)
        ≤ calculate_lyreco_score (.vFloat lh) (.vInt w) (.vInt c)
    ∧ calculate_lyreco_score (.vFloat lh) (.vInt w) (.vInt c1)
        ≤ calculate_lyreco_score (.vFloat lh) (.vInt w) (.vInt c)
    ∧ calculate_lyreco_score (.vFloat lh1) (.vInt w) (.vInt c)
        ≤ calculate_lyreco_score (.vFloat lh2) (.vInt w) (.vInt c) := by
  have hww : (w : ℚ) ≤ (w1 : ℚ) := by exact_mod_cast hw
  have hcc : (c : ℚ) ≤ (c1 : ℚ) := by exact_mod_cast hc
  refine ⟨?_, ?_, ?_⟩
  · rw [calc_score_eval, calc_score_eval]
    apply pyRound1_mono
    apply max_le_max le_rfl
    have hbase : max 0 (100 - (w1 : ℚ) * 1.2 - (c : ℚ) * 0.5)
        ≤ max 0 (100 - (w : ℚ) * 1.2 - (c : ℚ) * 0.5) :=
      max_le_max le_rfl (by nlinarith)
    split
    · linarith
    · exact hbase
  · rw [calc_score_eval, calc_score_eval]
    apply pyRound1_mono
    apply max_le_max le_rfl
    have hbase : max 0 (100 - (w : ℚ) * 1.2 - (c1 : ℚ) * 0.5)
        ≤ max 0 (100 - (w : ℚ) * 1.2 - (c : ℚ) * 0.5) :=
      max_le_max le_rfl (by nlinarith)
    split
    · linarith
    · exact hbase
  · rw [calc_score_eval, calc_score_eval]
    apply pyRound1_mono
    apply max_le_max le_rfl
    rw [if_pos (show lh1 > 0 from hlh1),
        if_pos (show lh2 > 0 from lt_of_lt_of_le hlh1 hlh12)]
    linarith

/-- Witness for C3 at `lh = 50`, `w = 1 ≤ 2`, `c = 1 ≤ 3`,
`lh1 = 50 ≤ lh2 = 60`. -/
theorem lyreco_score_monotone_witness :
    (1 : ℤ) ≤ 2 ∧ (1 : ℤ) ≤ 3 ∧ (0 : ℚ) < 50 ∧ (50 : ℚ) ≤ 60 ∧ (60 : ℚ) ≤ 100 ∧
    (calculate_lyreco_score (.vFloat 50) (.vInt 2) (.vInt 1)
        ≤ calculate_lyreco_score (.vFloat 50) (.vInt 1) (.vInt 1)
     ∧ calculate_lyreco_score (.vFloat 50) (.vInt 1) (.vInt 3)
        ≤ calculate_lyreco_score (.vFloat 50) (.vInt 1) (.vInt 1)
     ∧ calculate_lyreco_score (.vFloat 50) (.vInt 1) (.vInt 1)
        ≤ calculate_lyreco_score (.vFloat 60) (.vInt 1) (.vInt 1)) :=
  ⟨by norm_num, by norm_num, by norm_num, by norm_num, by norm_num,
    lyreco_score_monotone 50 50 60 1 2 1 3 (by norm_num) (by norm_num)
      (by norm_num) (by norm_num) (by norm_num)⟩

/-- C4: `generate_recommendations` always returns a non-empty list; when
no severity or triage condition fires it returns exactly the single
"no major issues" sentinel; and whenever `aria_issues ≥ 1` the first
element is the CRITICAL ARIA entry. -/
theorem recommendations_nonempty_aria_first (s lh : ℚ) (w c a al : ℤ) :
    generate_recommendations (.vFloat s) (.vFloat lh) (.vInt w) (.vInt c) (.vInt a) (.vInt al)
        ≠ []
    ∧ (a ≤ 0 → al ≤ 0 → c ≤ 0 → w ≤ 5 → 80 ≤ s → s < 90 →
        generate_recommendations (.vFloat s) (.vFloat lh) (.vInt w) (.vInt c) (.vInt a)
            (.vInt al)
          = ["✅ No major issues detected"])
    ∧ (1 ≤ a →
        (generate_recommendations (.vFloat s) (.vFloat lh) (.vInt w) (.vInt c) (.vInt a)
            (.vInt al)).head?
          = some ("🔴 CRITICAL: Fix " ++ toString a ++ " ARIA issues (screen readers)")) := by
  refine ⟨?_, ?_, ?_⟩
  · rw [gen_rec_eval]
    split
    · simp
    · rename_i h
      intro hnil
      rw [hnil] at h
      exact h rfl
  · intro ha hal hc hw hs1 hs2
    rw [gen_rec_eval]
    have hsev : severityRecs a al c w = [] := by
      unfold severityRecs
      rw [if_neg (by omega : ¬ a > 0), if_neg (by omega : ¬ al > 0),
          if_neg (by omega : ¬ c > 10), if_neg (by omega : ¬ c > 0),
          if_neg (by omega : ¬ w > 20), if_neg (by omega : ¬ w > 5)]
      simp
    have htri : triageRecs s = [] := by
      unfold triageRecs
      rw [if_neg (by linarith : ¬ s < 60), if_neg (by linarith : ¬ s < 80),
          if_neg (by linarith : ¬ s ≥ 90)]
    rw [hsev, htri]
    simp
  · intro ha
    rw [gen_rec_eval]
    unfold severityRecs
    rw [if_pos (by omega : a > 0)]
    simp

/-- Witness for C4: the no-fire case at `(score, counts) = (85, 0…)` and
the ARIA-first case at `aria_issues = 2`. -/
theorem recommendations_nonempty_aria_first_witness :
    ((0 : ℤ) ≤ 0 ∧ (80 : ℚ) ≤ 85 ∧ (85 : ℚ) < 90 ∧ (1 : ℤ) ≤ 2) ∧
    generate_recommendations (.vFloat 85) (.vFloat 90) (.vInt 0) (.vInt 0) (.vInt 0) (.vInt 0)
        = ["✅ No major issues detected"] ∧
    (generate_recommendations (.vFloat 85) (.vFloat 90) (.vInt 0) (.vInt 0) (.vInt 2)
        (.vInt 0)).head?
        = some ("🔴 CRITICAL: Fix " ++ toString (2 : ℤ) ++ " ARIA issues (screen readers)") :=
  ⟨⟨by norm_num, by norm_num, by norm_num, by norm_num⟩,
    (recommendations_nonempty_aria_first 85 90 0 0 0 0).2.1 (by norm_num) (by norm_num)
      (by norm_num) (by norm_num) (by norm_num) (by norm_num),
    (recommendations_nonempty_aria_first 85 90 0 0 2 0).2.2 (by norm_num)⟩

/-- C5: `generate_recommendations` appends exactly one triage line
determined by the score band — action-required for `score < 60`,
plan-next-sprint for `60 ≤ score < 80`, maintain/monitor for
`score ≥ 90` — and appends no triage line for `80 ≤ score < 90` (where
the output is just the severity entries, or the sentinel if there are
none). -/
theorem recommendations_triage_bands (s lh : ℚ) (w c a al : ℤ) :
    (s < 60 →
      generate_recommendations (.vFloat s) (.vFloat lh) (.vInt w) (.vInt c) (.vInt a) (.vInt al)
        = severityRecs a al c w ++ ["⚠️ ACTION REQUIRED: Critical barriers present"])
    ∧ (60 ≤ s → s < 80 →
      generate_recommendations (.vFloat s) (.vFloat lh) (.vInt w) (.vInt c) (.vInt a) (.vInt al)
        = severityRecs a al c w ++ ["📋 PLAN: Schedule fixes in next sprint"])
    ∧ (90 ≤ s →
      generate_recommendations (.vFloat s) (.vFloat lh) (.vInt w) (.vInt c) (.vInt a) (.vInt al)
        = severityRecs a al c w ++ ["✅ MAINTAIN: Monitor for regressions"])
    ∧ (80 ≤ s → s < 90 →
      generate_recommendations (.vFloat s) (.vFloat lh) (.vInt w) (.vInt c) (.vInt a) (.vInt al)
        = if (severityRecs a al c w).isEmpty then ["✅ No major issues detected"]
          else severityRecs a al c w) := by
  refine ⟨?_, ?_, ?_, ?_⟩
  · intro h1
    rw [gen_rec_eval]
    have htri : triageRecs s = ["⚠️ ACTION REQUIRED: Critical barriers present"] := by
      unfold triageRecs
      rw [if_pos h1]
    rw [htri]
    simp
  · intro h1 h2
    rw [gen_rec_eval]
    have htri : triageRecs s = ["📋 PLAN: Schedule fixes in next sprint"] := by
      unfold triageRecs
      rw [if_neg (by linarith : ¬ s < 60), if_pos h2]
    rw [htri]
    simp
  · intro h1
    rw [gen_rec_eval]
    have htri : triageRecs s = ["✅ MAINTAIN: Monitor for regressions"] := by
      unfold triageRecs
      rw [if_neg (by linarith : ¬ s < 60), if_neg (by linarith : ¬ s < 80), if_pos h1]
    rw [htri]
    simp
  · intro h1 h2
    rw [gen_rec_eval]
    have htri : triageRecs s = [] := by
      unfold triageRecs
      rw [if_neg (by linarith : ¬ s < 60), if_neg (by linarith : ¬ s < 80),
          if_neg (by linarith : ¬ s ≥ 90)]
    rw [htri]
    simp

/-- Witness for C5: the plan band at score 70 with one severity entry,
and the silent 80-90 band at score 85. -/
theorem recommendations_triage_bands_witness :
    ((60 : ℚ) ≤ 70 ∧ (70 : ℚ) < 80 ∧ (80 : ℚ) ≤ 85 ∧ (85 : ℚ) < 90) ∧
    generate_recommendations (.vFloat 70) (.vFloat 75) (.vInt 8) (.vInt 0) (.vInt 0) (.vInt 0)
        = severityRecs 0 0 0 8 ++ ["📋 PLAN: Schedule fixes in next sprint"] ∧
    generate_recommendations (.vFloat 85) (.vFloat 85) (.vInt 8) (.vInt 0) (.vInt 0) (.vInt 0)
        = if (severityRecs 0 0 0 8).isEmpty then ["✅ No major issues detected"]
          else severityRecs 0 0 0 8 :=
  ⟨⟨by norm_num, by norm_num, by norm_num, by norm_num⟩,
    (recommendations_triage_bands 70 75 8 0 0 0).2.1 (by norm_num) (by norm_num),
    (recommendations_triage_bands 85 85 8 0 0 0).2.2.2 (by norm_num) (by norm_num)⟩

/-- C6: every record produced by `run_audit` satisfies the invariant that
its Score field equals `calculate_lyreco_score` applied to the record's
own Lighthouse, WAVE Errors and Contrast Issues fields — the score is
derivable purely from those three fields. -/
theorem run_audit_score_invariant (url page_type country deploy_version : String)
    (lh : Option LHJson) (wave : Option WaveJson) :
    (run_audit url page_type country deploy_version lh wave).score
      = calculate_lyreco_score
          (.vFloat (run_audit url page_type country deploy_version lh wave).lighthouse)
          (.vInt (run_audit url page_type country deploy_version lh wave).wave_errors)
          (.vInt (run_audit url page_type country deploy_version lh wave).contrast_issues) :=
  rfl

/-- C7: the normalizers are total and never raise — `safe_int` returns 0
for `None` and for any value whose integer coercion fails (in particular
`safe_int("abc") = 0`), and `safe_float` returns 0.0 for `None` and for
any value whose float coercion fails (in particular
`safe_float("abc") = 0.0`). -/
theorem normalizers_never_raise (v u : PyVal)
    (hv : pyIntCoerce v = none) (hu : pyFloatCoerce u = none) :
    safe_int .vNone = 0 ∧ safe_float .vNone = 0
    ∧ safe_int (.vStr "abc") = 0 ∧ safe_float (.vStr "abc") = 0
    ∧ safe_int v = 0 ∧ safe_float u = 0 := by
  refine ⟨rfl, rfl, by decide, by decide, ?_, ?_⟩
  · cases v with
    | vNone => rfl
    | vInt n => simp [pyIntCoerce] at hv
    | vFloat q => simp [pyIntCoerce] at hv
    | vStr s =>
        simp only [pyIntCoerce] at hv
        simp [safe_int, pyIntCoerce, hv]
  · cases u with
    | vNone => rfl
    | vInt n => simp [pyFloatCoerce] at hu
    | vFloat q => simp [pyFloatCoerce] at hu
    | vStr s =>
        simp only [pyFloatCoerce] at hu
        simp [safe_float, pyFloatCoerce, hu]

/-- Witness for C7 at the failing coercions `int("12a")` and
`float("12a")`. -/
theorem normalizers_never_raise_witness :
    (pyIntCoerce (.vStr "12a") = none ∧ pyFloatCoerce (.vStr "12a") = none) ∧
    (safe_int .vNone = 0 ∧ safe_float .vNone = 0
     ∧ safe_int (.vStr "abc") = 0 ∧ safe_float (.vStr "abc") = 0
     ∧ safe_int (.vStr "12a") = 0 ∧ safe_float (.vStr "12a") = 0) :=
  ⟨⟨by decide, by decide⟩,
    normalizers_never_raise (.vStr "12a") (.vStr "12a") (by decide) (by decide)⟩

/-- C8 counterexample: in the WAVE processing a malformed
`categories.error.count` (the string "abc") aborts the whole parsing block
before `categories.contrast.count` is read, so the well-formed contrast
count 7 is NOT extracted — the claim's "vice versa" direction fails. -/
theorem wave_scope_counterexample :
    waveExtract waveMalformedErrCount = (0, 0)
    ∧ (waveExtract waveMalformedErrCount).2 ≠ 7 := by
  refine ⟨by decide, by decide⟩

/-- C8 (amended): WAVE malformed-count handling is asymmetric because the
`try` wraps both sequential extractions.  A malformed
`categories.contrast.count` does not blank out a well-formed error count
(it was already assigned), but a malformed `categories.error.count`
aborts the block and leaves the contrast count at 0 even when
`categories.contrast.count` is well-formed. -/
theorem wave_scope_amended (v : PyVal) (e : ℤ)
    (hv : pyIntCoerce v = none) (hne : v ≠ PyVal.vNone) :
    waveExtract { categories := some {
        error := some { count := some (.vInt e) },
        contrast := some { count := some v } } } = (e, 0)
    ∧ waveExtract { categories := some {
        error := some { count := some v },
        contrast := some { count := some (.vInt e) } } } = (0, 0) := by
  cases v with
  | vNone => exact absurd rfl hne
  | vInt n => simp [pyIntCoerce] at hv
  | vFloat q => simp [pyIntCoerce] at hv
  | vStr s =>
      simp only [pyIntCoerce] at hv
      constructor
      · simp [waveExtract, waveCategoryCount, pyIntCoerce, hv]
      · simp [waveExtract, waveCategoryCount, pyIntCoerce, hv]

/-- Witness for C8 (amended) at the malformed count `"abc"` and the
well-formed count 7. -/
theorem wave_scope_amended_witness :
    (pyIntCoerce (.vStr "abc") = none ∧ PyVal.vStr "abc" ≠ PyVal.vNone) ∧
    (waveExtract { categories := some {
        error := some { count := some (.vInt 7) },
        contrast := some { count := some (.vStr "abc") } } } = (7, 0)
     ∧ waveExtract { categories := some {
        error := some { count := some (.vStr "abc") },
        contrast := some { count := some (.vInt 7) } } } = (0, 0)) :=
  ⟨⟨by decide, by decide⟩, wave_scope_amended (.vStr "abc") 7 (by decide) (by decide)⟩

/-- C9 counterexample: for two records sharing the ("France", "Home") key
with scores 100 and 0, the pivot view keeps only the first record's score
(pandas `aggfunc='first'`), 100, instead of combining the duplicates into
their average 50. -/
theorem pivot_duplicates_counterexample :
    pivotScoreFirst [recFranceHomeA, recFranceHomeB] "France" "Home" = some 100
    ∧ averageScore [recFranceHomeA, recFranceHomeB] = 50
    ∧ pivotScoreFirst [recFranceHomeA, recFranceHomeB] "France" "Home"
        ≠ some (averageScore [recFranceHomeA, recFranceHomeB]) := by
  have havg : averageScore [recFranceHomeA, recFranceHomeB] = 50 := by
    simp [averageScore, recFranceHomeA, recFranceHomeB]
    norm_num
  have hpiv : pivotScoreFirst [recFranceHomeA, recFranceHomeB] "France" "Home"
      = some 100 := by
    simp [pivotScoreFirst, List.find?, recFranceHomeA]
  refine ⟨hpiv, havg, ?_⟩
  rw [hpiv, havg]
  intro h
  exact absurd (Option.some.inj h) (by norm_num)

/-- C9 (amended): the sum and mean aggregates do combine duplicate
(country, page_type) records by plain summation/averaging, but the pivot
view keyed by (country, page_type) keeps only the first record's score of
each group. -/
theorem duplicates_aggregate_amended (r1 r2 : AuditRecord)
    (hc : r1.country = r2.country) (hp : r1.page_type = r2.page_type) :
    averageScore [r1, r2] = (r1.score + r2.score) / 2
    ∧ totalWaveErrors [r1, r2] = r1.wave_errors + r2.wave_errors
    ∧ totalAriaIssues [r1, r2] = r1.aria_issues + r2.aria_issues
    ∧ totalAltIssues [r1, r2] = r1.alt_issues + r2.alt_issues
    ∧ totalContrastIssues [r1, r2] = r1.contrast_issues + r2.contrast_issues
    ∧ pivotScoreFirst [r1, r2] r1.country r1.page_type = some r1.score := by
  refine ⟨?_, ?_, ?_, ?_, ?_, ?_⟩
  · simp [averageScore]
  · simp [totalWaveErrors]
  · simp [totalAriaIssues]
  · simp [totalAltIssues]
  · simp [totalContrastIssues]
  · simp [pivotScoreFirst, List.find?]

/-- Witness for C9 (amended) at the two concrete duplicate records. -/
theorem duplicates_aggregate_amended_witness :
    (recFranceHomeA.country = recFranceHomeB.country
     ∧ recFranceHomeA.page_type = recFranceHomeB.page_type) ∧
    (averageScore [recFranceHomeA, recFranceHomeB]
        = (recFranceHomeA.score + recFranceHomeB.score) / 2
     ∧ totalWaveErrors [recFranceHomeA, recFranceHomeB]
        = recFranceHomeA.wave_errors + recFranceHomeB.wave_errors
     ∧ totalAriaIssues [recFranceHomeA, recFranceHomeB]
        = recFranceHomeA.aria_issues + recFranceHomeB.aria_issues
     ∧ totalAltIssues [recFranceHomeA, recFranceHomeB]
        = recFranceHomeA.alt_issues + recFranceHomeB.alt_issues
     ∧ totalContrastIssues [recFranceHomeA, recFranceHomeB]
        = recFranceHomeA.contrast_issues + recFranceHomeB.contrast_issues
     ∧ pivotScoreFirst [recFranceHomeA, recFranceHomeB]
          recFranceHomeA.country recFranceHomeA.page_type
        = some recFranceHomeA.score) :=
  ⟨⟨rfl, rfl⟩, duplicates_aggregate_amended recFranceHomeA recFranceHomeB rfl rfl⟩

/-- The failed-audits component of the Lighthouse loop is the titles of
the failed audits in encounter order. -/
theorem lighthouseLoop_failed_eq (audits : List LHAudit) (acc : List String × ℤ × ℤ) :
    (audits.foldl lighthouseStep acc).1
      = acc.1 ++ (audits.filter auditFailed).map auditTitle := by
  induction audits generalizing acc with
  | nil => simp
  | cons a t ih =>
      rw [List.foldl_cons, List.filter_cons]
      by_cases h : auditFailed a
      · rw [ih]
        simp [lighthouseStep, h]
      · rw [ih]
        simp [lighthouseStep, h]

/-- C10: the Top Failed Audits field of every `run_audit` result is the
first at most 3 failed-audit titles in upstream encounter order joined by
"; " — "top" is positional, not a severity ranking — and it is the empty
string when no audit failed (in particular also when the whole Lighthouse
request failed). -/
theorem top_failed_audits_positional (url page_type country deploy_version : String)
    (d : LHJson) (wave : Option WaveJson) :
    (run_audit url page_type country deploy_version (some d) wave).top_failed_audits
      = String.intercalate "; " (((d.audits.filter auditFailed).map auditTitle).take 3)
    ∧ (run_audit url page_type country deploy_version none wave).top_failed_audits = ""
    ∧ ((d.audits.filter auditFailed) = [] →
        (run_audit url page_type country deploy_version (some d) wave).top_failed_audits
          = "") := by
  have hloop : (lighthouseLoop d.audits).1 = (d.audits.filter auditFailed).map auditTitle := by
    have h := lighthouseLoop_failed_eq d.audits ([], 0, 0)
    simpa [lighthouseLoop] using h
  have hfield : (run_audit url page_type country deploy_version (some d) wave).top_failed_audits
      = if (lighthouseLoop d.audits).1.isEmpty then ""
        else String.intercalate "; " ((lighthouseLoop d.audits).1.take 3) := rfl
  have hmain : (run_audit url page_type country deploy_version (some d) wave).top_failed_audits
      = String.intercalate "; " (((d.audits.filter auditFailed).map auditTitle).take 3) := by
    rw [hfield, hloop]
    cases hfa : (d.audits.filter auditFailed).map auditTitle with
    | nil => rfl
    | cons x xs => simp
  refine ⟨hmain, rfl, ?_⟩
  intro hnone
  rw [hmain, hnone]
  rfl

/-- Witness for C10 at a payload whose only audit passed (score 1): no
audit failed and the field is empty. -/
theorem top_failed_audits_positional_witness :
    (lhAllPassing.audits.filter auditFailed = []) ∧
    (run_audit "https://shop.lyreco.fr/fr" "Home" "France" "" (some lhAllPassing) none
        ).top_failed_audits = "" :=
  ⟨by decide,
    (top_failed_audits_positional "https://shop.lyreco.fr/fr" "Home" "France" ""
        lhAllPassing none).2.2 (by decide)⟩
